import Mathlib

/-!
Verification of the bulk notification dispatcher of the kr-updates backend:
the batch scheduler / fan-out executor `sendBulkEmails`
(src/services/emailService.js) and the aggregator / mode selector
`sendNotification` (notification controller).

The JavaScript source is embedded shallowly:
* environment variables become an explicit `Env` record, with JavaScript
  string truthiness (`undefined` and `""` are falsy) made explicit;
* the delivery transport (`transporter.sendMail`) becomes a function
  `send : EmailData → Except String String` returning either a message id
  or the message of the thrown error;
* promise-returning code becomes `Except String` results, and the temporal
  behaviour of the event loop is captured by explicit event traces
  (`Ev`, `fanOutTrace`, `schedLoop`).
-/

/-- The relevant part of `process.env`: the two SMTP credential variables
checked by `createTransporter`.  `none` models an unset variable. -/
structure Env where
  smtpUser : Option String
  smtpPass : Option String
deriving DecidableEq

/-- JavaScript truthiness of an optional string: `undefined` and the empty
string are falsy, every other string is truthy. -/
def truthy : Option String → Bool
  | none => false
  | some s => !s.isEmpty

/-- `createTransporter` throws unless both `SMTP_USER` and `SMTP_PASS` are
truthy (`if (!process.env.SMTP_USER || !process.env.SMTP_PASS) throw ...`).
This predicate is the success condition of that check. -/
def createTransporterOk (env : Env) : Bool :=
  truthy env.smtpUser && truthy env.smtpPass

/-- The message of the error thrown by `createTransporter` when the SMTP
credentials are missing. -/
def smtpMissingMsg : String :=
  "SMTP credentials are missing. Please configure SMTP_USER and SMTP_PASS in your .env file."

/-- One element of the `emailList` argument of `sendBulkEmails`:
`{ to, subject, html, text }` as built by the notification controller
(`to` is spelled `toAddr` because `to` is reserved in Lean). -/
structure EmailData where
  toAddr : String
  subject : String
  html : String
  text : Option String
deriving DecidableEq

/-- One per-recipient delivery outcome as constructed inside
`sendBulkEmails`: `{ success: true, email, messageId }` on success and
`{ success: false, email, error }` on failure. -/
structure Outcome where
  success : Bool
  email : String
  messageId : Option String
  error : Option String
deriving DecidableEq

/-- `BATCH_SIZE = 50` — emails per batch. -/
def BATCH_SIZE : Nat := 50

/-- `CONCURRENT_PER_BATCH = 10` — intended parallel sends per batch. -/
def CONCURRENT_PER_BATCH : Nat := 10

/-- `DELAY_BETWEEN_BATCHES = 2000` — milliseconds of pause between batches. -/
def DELAY_BETWEEN_BATCHES : Nat := 2000

/-- `LARGE_BATCH_THRESHOLD = 500` — the background-mode threshold of the
notification controller. -/
def LARGE_BATCH_THRESHOLD : Nat := 500

/-- The slicing loop
`for (let i = 0; i < list.length; i += size) out.push(list.slice(i, i + size))`
used by `sendBulkEmails` both for batches (size 50) and for the concurrency
groups inside a batch (size 10).  Defined for positive `size` (both uses are
positive constants); for `size = 0` we return `[]`. -/
def chunkListGo (size : Nat) : Nat → List α → List (List α)
  | 0, _ => []
  | _, [] => []
  | fuel + 1, x :: xs =>
    (x :: xs).take size :: chunkListGo size fuel ((x :: xs).drop size)

def chunkList (size : Nat) (l : List α) : List (List α) :=
  if size = 0 then [] else chunkListGo size l.length l

/-- `chunkListGo` ignores the fuel as soon as it covers the list length
(each loop iteration consumes at least one element when `size ≠ 0`). -/
theorem chunkListGo_congr (size : Nat) (hs : size ≠ 0) :
    ∀ (f1 f2 : Nat) (l : List α), l.length ≤ f1 → l.length ≤ f2 →
      chunkListGo size f1 l = chunkListGo size f2 l := by
  intro f1
  induction f1 with
  | zero =>
    intro f2 l h1 h2
    have : l = [] := List.eq_nil_of_length_eq_zero (Nat.le_zero.mp h1)
    subst this
    cases f2 <;> rfl
  | succ f ih =>
    intro f2 l h1 h2
    match l, f2 with
    | [], f2 => cases f2 <;> rfl
    | x :: xs, 0 => simp at h2
    | x :: xs, f2 + 1 =>
      show List.take size (x :: xs) :: chunkListGo size f ((x :: xs).drop size)
          = List.take size (x :: xs) :: chunkListGo size f2 ((x :: xs).drop size)
      congr 1
      apply ih
      · simp only [List.length_drop, List.length_cons]
        simp only [List.length_cons] at h1
        omega
      · simp only [List.length_drop, List.length_cons]
        simp only [List.length_cons] at h2
        omega

theorem chunkList_nil (size : Nat) : chunkList size ([] : List α) = [] := by
  unfold chunkList
  cases Nat.decEq size 0 <;> simp [chunkListGo]

theorem chunkList_cons (size : Nat) (hs : size ≠ 0) (l : List α) (hl : l ≠ []) :
    chunkList size l = l.take size :: chunkList size (l.drop size) := by
  match l with
  | [] => exact absurd rfl hl
  | x :: xs =>
    unfold chunkList
    rw [if_neg hs, if_neg hs]
    show List.take size (x :: xs) :: chunkListGo size xs.length ((x :: xs).drop size)
        = List.take size (x :: xs) :: chunkListGo size ((x :: xs).drop size).length ((x :: xs).drop size)
    congr 1
    apply chunkListGo_congr size hs
    · simp only [List.length_drop, List.length_cons]
      omega
    · exact le_rfl

theorem chunkList_ne_nil (size : Nat) (hs : size ≠ 0) (l : List α) (hl : l ≠ []) :
    chunkList size l ≠ [] := by
  rw [chunkList_cons size hs l hl]
  simp

theorem drop_length_le (b n : Nat) (hb : b ≠ 0) (x : α) (xs : List α)
    (h : (x :: xs).length ≤ n + 1) : ((x :: xs).drop b).length ≤ n := by
  simp only [List.length_drop, List.length_cons] at h ⊢
  omega

/-- The chunks concatenate back to the original list: slicing loses and
reorders nothing. -/
theorem chunkList_flatten (b : Nat) (hb : b ≠ 0) (l : List α) :
    (chunkList b l).flatten = l := by
  have main : ∀ (n : Nat) (l : List α), l.length ≤ n → (chunkList b l).flatten = l := by
    intro n
    induction n with
    | zero =>
      intro l hl
      have : l = [] := List.eq_nil_of_length_eq_zero (Nat.le_zero.mp hl)
      subst this
      simp [chunkList_nil]
    | succ n ih =>
      intro l hl
      match l with
      | [] => simp [chunkList_nil]
      | x :: xs =>
        rw [chunkList_cons b hb (x :: xs) (by simp), List.flatten_cons,
          ih ((x :: xs).drop b) (drop_length_le b n hb x xs hl)]
        exact List.take_append_drop b (x :: xs)
  exact main l.length l le_rfl

theorem ceil_div_step (b N : Nat) (hb : b ≠ 0) (hN : N ≠ 0) :
    (N - b + b - 1) / b + 1 = (N + b - 1) / b := by
  rcases le_or_lt b N with h | h
  · have h1 : N - b + b - 1 = N - 1 := by omega
    have h2 : N + b - 1 = N - 1 + b := by omega
    rw [h1, h2, Nat.add_div_right _ (Nat.pos_of_ne_zero hb)]
  · have h1 : N - b + b - 1 = b - 1 := by omega
    have h2 : N + b - 1 = N - 1 + b := by omega
    rw [h1, h2, Nat.add_div_right _ (Nat.pos_of_ne_zero hb),
      Nat.div_eq_of_lt (by omega), Nat.div_eq_of_lt (by omega)]

/-- The number of chunks is `⌈N / b⌉`, written as `(N + b - 1) / b`. -/
theorem chunkList_length (b : Nat) (hb : b ≠ 0) (l : List α) :
    (chunkList b l).length = (l.length + b - 1) / b := by
  have main : ∀ (n : Nat) (l : List α), l.length ≤ n →
      (chunkList b l).length = (l.length + b - 1) / b := by
    intro n
    induction n with
    | zero =>
      intro l hl
      have : l = [] := List.eq_nil_of_length_eq_zero (Nat.le_zero.mp hl)
      subst this
      have hdiv : (b - 1) / b = 0 := Nat.div_eq_of_lt (by omega)
      simp [chunkList_nil, hdiv]
    | succ n ih =>
      intro l hl
      match l with
      | [] =>
        have hdiv : (b - 1) / b = 0 := Nat.div_eq_of_lt (by omega)
        simp [chunkList_nil, hdiv]
      | x :: xs =>
        rw [chunkList_cons b hb (x :: xs) (by simp), List.length_cons,
          ih ((x :: xs).drop b) (drop_length_le b n hb x xs hl)]
        simp only [List.length_drop]
        exact ceil_div_step b (x :: xs).length hb (by simp)
  exact main l.length l le_rfl

/-- Every chunk except possibly the last is full. -/
theorem chunkList_dropLast_length (b : Nat) (hb : b ≠ 0) (l : List α) :
    ∀ c ∈ (chunkList b l).dropLast, c.length = b := by
  have main : ∀ (n : Nat) (l : List α), l.length ≤ n →
      ∀ c ∈ (chunkList b l).dropLast, c.length = b := by
    intro n
    induction n with
    | zero =>
      intro l hl
      have : l = [] := List.eq_nil_of_length_eq_zero (Nat.le_zero.mp hl)
      subst this
      simp [chunkList_nil]
    | succ n ih =>
      intro l hl
      match l with
      | [] => simp [chunkList_nil]
      | x :: xs =>
        rw [chunkList_cons b hb (x :: xs) (by simp)]
        intro c hc
        by_cases hrest : (x :: xs).drop b = []
        · rw [hrest, chunkList_nil] at hc
          simp at hc
        · have hne := chunkList_ne_nil b hb _ hrest
          match hchunks : chunkList b ((x :: xs).drop b) with
          | [] => exact absurd hchunks hne
          | y :: ys =>
            rw [hchunks, List.dropLast_cons₂] at hc
            rcases List.mem_cons.mp hc with h | h
            · subst h
              have hlen : b < (x :: xs).length := by
                by_contra hle
                exact hrest (List.drop_eq_nil_of_le (by omega))
              simp only [List.length_take]
              omega
            · have := ih ((x :: xs).drop b) (drop_length_le b n hb x xs hl)
              rw [hchunks] at this
              exact this c h
  exact main l.length l le_rfl

/-- The last chunk has length `N % b`, or `b` when `b` divides `N`. -/
theorem chunkList_getLast_length (b : Nat) (hb : b ≠ 0) (l : List α) (hl : l ≠ []) :
    (chunkList b l).getLast?.map List.length
      = some (if l.length % b = 0 then b else l.length % b) := by
  have main : ∀ (n : Nat) (l : List α), l.length ≤ n → l ≠ [] →
      (chunkList b l).getLast?.map List.length
        = some (if l.length % b = 0 then b else l.length % b) := by
    intro n
    induction n with
    | zero =>
      intro l hlen hl
      have : l = [] := List.eq_nil_of_length_eq_zero (Nat.le_zero.mp hlen)
      exact absurd this hl
    | succ n ih =>
      intro l hlen hl
      match l with
      | [] => exact absurd rfl hl
      | x :: xs =>
        rw [chunkList_cons b hb (x :: xs) (by simp)]
        by_cases hrest : (x :: xs).drop b = []
        · have hle : (x :: xs).length ≤ b := by
            by_contra hgt
            have hpos : (x :: xs).drop b ≠ [] := by
              apply List.ne_nil_of_length_pos
              simp only [List.length_drop]
              omega
            exact hpos hrest
          rw [hrest, chunkList_nil]
          simp only [List.getLast?_singleton, Option.map_some']
          congr 1
          simp only [List.length_cons] at hle
          rcases Nat.lt_or_ge (xs.length + 1) b with h | h
          · rw [List.length_cons, Nat.mod_eq_of_lt h, if_neg (by omega),
              List.length_take, List.length_cons]
            omega
          · have heq : xs.length + 1 = b := by omega
            rw [List.length_cons, heq, Nat.mod_self, if_pos rfl,
              List.length_take, List.length_cons]
            omega
        · have hne := chunkList_ne_nil b hb _ hrest
          match hchunks : chunkList b ((x :: xs).drop b) with
          | [] => exact absurd hchunks hne
          | y :: ys =>
            rw [List.getLast?_cons_cons]
            have hrec := ih ((x :: xs).drop b) (drop_length_le b n hb x xs hlen) hrest
            rw [hchunks] at hrec
            rw [hrec]
            have hblt : b ≤ (x :: xs).length := by
              by_contra hgt
              exact hrest (List.drop_eq_nil_of_le (by omega))
            congr 1
            have hmod : ((x :: xs).drop b).length % b = (x :: xs).length % b := by
              simp only [List.length_drop]
              conv_rhs => rw [← Nat.sub_add_cancel hblt]
              rw [Nat.add_mod_right]
            rw [hmod]
  exact main l.length l le_rfl hl

/-- All chunks are nonempty and no chunk exceeds `b`. -/
theorem chunkList_mem_length (b : Nat) (hb : b ≠ 0) (l : List α) :
    ∀ c ∈ chunkList b l, c ≠ [] ∧ c.length ≤ b := by
  have main : ∀ (n : Nat) (l : List α), l.length ≤ n →
      ∀ c ∈ chunkList b l, c ≠ [] ∧ c.length ≤ b := by
    intro n
    induction n with
    | zero =>
      intro l hlen
      have : l = [] := List.eq_nil_of_length_eq_zero (Nat.le_zero.mp hlen)
      subst this
      simp [chunkList_nil]
    | succ n ih =>
      intro l hlen
      match l with
      | [] => simp [chunkList_nil]
      | x :: xs =>
        rw [chunkList_cons b hb (x :: xs) (by simp)]
        intro c hc
        rcases List.mem_cons.mp hc with h | h
        · subst h
          constructor
          · simp only [ne_eq, List.take_eq_nil_iff]
            simp
            omega
          · simp [List.length_take]
        · exact ih ((x :: xs).drop b) (drop_length_le b n hb x xs hlen) c h
  exact main l.length l le_rfl

/-- The body of the `concurrentBatch.map(async (emailData) => ...)` callback:
one delivery attempt, with its `try`/`catch` converting a transport error
into a failed outcome instead of letting it propagate. -/
def attemptOutcome (send : EmailData → Except String String) (e : EmailData) : Outcome :=
  match send e with
  | .ok mid => { success := true, email := e.toAddr, messageId := some mid, error := none }
  | .error msg => { success := false, email := e.toAddr, messageId := none, error := some msg }

/-- The per-batch fan-out section of `sendBulkEmails`: slices the batch into
groups of `CONCURRENT_PER_BATCH`, maps the delivery attempt over each group
and flattens the group results (`batchResults.flat()`). -/
def fanOutResults (send : EmailData → Except String String)
    (batch : List EmailData) : List Outcome :=
  ((chunkList CONCURRENT_PER_BATCH batch).map (fun g => g.map (attemptOutcome send))).flatten

/-- `sendBulkEmails(emailList)`: creates the transporter (throwing when the
SMTP credentials are missing), slices the list into batches of `BATCH_SIZE`,
runs the fan-out section on each batch in order and accumulates the
outcomes (`results.push(...batchResults.flat())`). -/
def sendBulkEmails (env : Env) (send : EmailData → Except String String)
    (emailList : List EmailData) : Except String (List Outcome) :=
  if createTransporterOk env then
    .ok (((chunkList BATCH_SIZE emailList).map (fanOutResults send)).flatten)
  else
    .error smtpMissingMsg

/-- `results.filter((r) => r.success).length`. -/
def successCount (rs : List Outcome) : Nat :=
  (rs.filter (fun r => r.success)).length

/-- `results.filter((r) => !r.success).length`. -/
def failureCount (rs : List Outcome) : Nat :=
  (rs.filter (fun r => !r.success)).length

theorem successCount_add_failureCount (rs : List Outcome) :
    successCount rs + failureCount rs = rs.length := by
  induction rs with
  | nil => rfl
  | cons r rest ih =>
    simp only [successCount, failureCount, List.filter_cons] at *
    cases hr : r.success <;> simp [hr] <;> omega

/-- Mapping a function chunkwise and flattening is mapping over the list. -/
theorem chunk_map_flatten (b : Nat) (hb : b ≠ 0) (f : α → β) (l : List α) :
    ((chunkList b l).map (List.map f)).flatten = l.map f := by
  rw [← List.map_flatten, chunkList_flatten b hb]

theorem fanOutResults_eq_map (send : EmailData → Except String String)
    (batch : List EmailData) :
    fanOutResults send batch = batch.map (attemptOutcome send) := by
  unfold fanOutResults
  exact chunk_map_flatten CONCURRENT_PER_BATCH (by decide) (attemptOutcome send) batch

/-- With the SMTP credentials configured, `sendBulkEmails` resolves with the
pointwise delivery attempt over the whole input list. -/
theorem sendBulkEmails_ok (env : Env) (send : EmailData → Except String String)
    (l : List EmailData) (h : createTransporterOk env = true) :
    sendBulkEmails env send l = .ok (l.map (attemptOutcome send)) := by
  unfold sendBulkEmails
  rw [if_pos h]
  congr 1
  have : (chunkList BATCH_SIZE l).map (fanOutResults send)
      = (chunkList BATCH_SIZE l).map (List.map (attemptOutcome send)) :=
    List.map_congr_left (fun batch _ => fanOutResults_eq_map send batch)
  rw [this]
  exact chunk_map_flatten BATCH_SIZE (by decide) (attemptOutcome send) l

/-- Events observable by a counting test transport during one run of
`sendBulkEmails`: entry into `transporter.sendMail` for one recipient,
settlement of that delivery promise, and the inter-batch `setTimeout`
pause. -/
inductive Ev where
  | callStart (email : String)
  | callSettle (email : String)
  | batchDelay
deriving DecidableEq

def isStart : Ev → Bool
  | .callStart _ => true
  | _ => false

def isSettle : Ev → Bool
  | .callSettle _ => true
  | _ => false

def isDelay : Ev → Bool
  | .batchDelay => true
  | _ => false

/-- Number of delivery attempts in flight after a trace prefix: attempts
entered minus attempts settled. -/
def inFlight (t : List Ev) : Nat := t.countP isStart - t.countP isSettle

/-- The maximum number of simultaneously in-flight delivery attempts over
all prefixes of a trace. -/
def maxInFlight (t : List Ev) : Nat :=
  (List.range (t.length + 1)).foldl (fun m n => max m (inFlight (t.take n))) 0

/-- Trace of one execution of the fan-out section of `sendBulkEmails` on one
batch, as the JavaScript event loop runs it with an asynchronous transport.
The group loop pushes `Promise.all(group.map(async (d) => ...))` into
`batchPromises` and contains no `await`; each `async` callback runs
synchronously up to its first `await`, entering `transporter.sendMail`.
Hence every send of every group of the batch is initiated during one
synchronous segment, before any delivery promise can settle, and the
settlements are processed only afterwards, while the code is suspended on
`await Promise.all(batchPromises)`. -/
def fanOutTrace (batch : List EmailData) : List Ev :=
  ((chunkList CONCURRENT_PER_BATCH batch).map
      (fun g => g.map (fun e => Ev.callStart e.toAddr))).flatten
    ++ batch.map (fun e => Ev.callSettle e.toAddr)

/-- Modelled from the spec: the fan-out executor the specification
describes, issuing one concurrency group at a time and waiting for every
call of the group to settle before starting the next group. -/
def specFanOutTrace (batch : List EmailData) : List Ev :=
  ((chunkList CONCURRENT_PER_BATCH batch).map
    (fun g => g.map (fun e => Ev.callStart e.toAddr)
      ++ g.map (fun e => Ev.callSettle e.toAddr))).flatten

/-- The batch loop of `sendBulkEmails`: the fan-out of each batch is awaited to
completion (`await Promise.all(batchPromises)`) before the loop continues,
and after every batch except the last
(`if (batchIndex < batches.length - 1)`) the scheduler pauses for
`DELAY_BETWEEN_BATCHES`. -/
def schedLoop : List (List EmailData) → List Ev
  | [] => []
  | [b] => fanOutTrace b
  | b :: b2 :: rest => fanOutTrace b ++ Ev.batchDelay :: schedLoop (b2 :: rest)

/-- The full event trace of `sendBulkEmails` on an email list. -/
def schedulerTrace (emailList : List EmailData) : List Ev :=
  schedLoop (chunkList BATCH_SIZE emailList)

theorem fanOutTrace_countP_delay (batch : List EmailData) :
    (fanOutTrace batch).countP isDelay = 0 := by
  rw [List.countP_eq_zero]
  intro a ha
  rcases List.mem_append.mp ha with h | h
  · rcases List.mem_flatten.mp h with ⟨g, hg, hag⟩
    rcases List.mem_map.mp hg with ⟨c, _, rfl⟩
    rcases List.mem_map.mp hag with ⟨e, _, rfl⟩
    simp [isDelay]
  · rcases List.mem_map.mp h with ⟨e, _, rfl⟩
    simp [isDelay]

theorem fanOutTrace_countP_settle (batch : List EmailData) :
    (fanOutTrace batch).countP isSettle = batch.length := by
  rw [fanOutTrace, List.countP_append]
  have h1 : (((chunkList CONCURRENT_PER_BATCH batch).map
      (fun g => g.map (fun e => Ev.callStart e.toAddr))).flatten).countP isSettle = 0 := by
    rw [List.countP_eq_zero]
    intro a ha
    rcases List.mem_flatten.mp ha with ⟨g, hg, hag⟩
    rcases List.mem_map.mp hg with ⟨c, _, rfl⟩
    rcases List.mem_map.mp hag with ⟨e, _, rfl⟩
    simp [isSettle]
  have h2 : (batch.map (fun e => Ev.callSettle e.toAddr)).countP isSettle
      = batch.length := by
    simp [List.countP_map, Function.comp_def, isSettle, List.countP_true]
  rw [h1, h2, Nat.zero_add]

/-- Closed form of the batch loop: the traces of the batches appear whole and in
order, with exactly one pause before each batch after the first and no
pause after the final batch. -/
theorem schedLoop_closed (b : List EmailData) (bs : List (List EmailData)) :
    schedLoop (b :: bs)
      = fanOutTrace b
        ++ (bs.map (fun c => Ev.batchDelay :: fanOutTrace c)).flatten := by
  induction bs generalizing b with
  | nil => simp [schedLoop]
  | cons b2 rest ih =>
    rw [schedLoop, ih b2]
    simp

theorem schedLoop_countP_delay (bs : List (List EmailData)) (h : bs ≠ []) :
    (schedLoop bs).countP isDelay = bs.length - 1 := by
  induction bs with
  | nil => exact absurd rfl h
  | cons b rest ih =>
    match rest with
    | [] => simp [schedLoop, fanOutTrace_countP_delay]
    | b2 :: r =>
      rw [schedLoop, List.countP_append, List.countP_cons,
        fanOutTrace_countP_delay, ih (by simp)]
      simp [isDelay]

theorem schedLoop_countP_settle (bs : List (List EmailData)) :
    (schedLoop bs).countP isSettle = (bs.map List.length).sum := by
  induction bs with
  | nil => simp [schedLoop]
  | cons b rest ih =>
    match rest with
    | [] => simp [schedLoop, fanOutTrace_countP_settle]
    | b2 :: r =>
      rw [schedLoop, List.countP_append, List.countP_cons,
        fanOutTrace_countP_settle, ih]
      simp [isSettle]

/-- A post as the notification controller uses it after `Post.findById`:
only the slug is consulted by the dispatcher itself; the rest of the
document feeds the template renderer, which is passed in as the external
collaborator it is. -/
structure Post where
  slug : String
deriving DecidableEq

/-- One user document as returned by the `User.find` queries of the controller
(`_id email firstName lastName isEmailVerified` plus the `isActive`
filter field; only the fields the dispatcher branches on are kept). -/
structure User where
  id : Nat
  email : String
  isActive : Bool
  isEmailVerified : Bool
deriving DecidableEq

/-- The request-body fields destructured by `sendNotification`:
`{ postId, userIds, subject, content, sendToAll }`.  `none` models an
absent (`undefined`) field. -/
structure NotifyReq where
  postId : Option String
  userIds : Option (List Nat)
  subject : Option String
  content : Option String
  sendToAll : Bool
deriving DecidableEq

/-- The caller-visible outcome of `sendNotification`:
`appError m c` models `next(new AppError(m, c))` (the Express error path);
`ackBackground` models the `ApiResponse.success` sent in background mode
(data `{ total, totalRequested, unverifiedSkipped, processing, message }`);
`report` models the `ApiResponse.success` sent in immediate mode
(data `{ total, totalRequested, unverifiedSkipped, success, failed,
results }`). -/
inductive NotifyRes where
  | appError (message : String) (statusCode : Nat)
  | ackBackground (total totalRequested unverifiedSkipped : Nat)
      (processing : Bool) (dataMessage : String) (message : String)
  | report (total totalRequested unverifiedSkipped : Nat)
      (successCnt failedCnt : Nat) (results : List Outcome) (message : String)
deriving DecidableEq

/-- Whether a `NotifyRes` went down the Express error path. -/
def isAppError : NotifyRes → Bool
  | .appError _ _ => true
  | _ => false

/-- `if (!postId || !subject || !content)` — the required-field check. -/
def validationOk (req : NotifyReq) : Bool :=
  truthy req.postId && truthy req.subject && truthy req.content

/-- The user-selection block: `sendToAll` selects all active users;
otherwise a present nonempty `userIds` selects the active users among
them; otherwise the controller rejects the request (`none`). -/
def selectUsers (req : NotifyReq) (allUsers : List User) : Option (List User) :=
  if req.sendToAll then
    some (allUsers.filter (fun u => u.isActive))
  else
    match req.userIds with
    | some ids =>
      if 0 < ids.length then
        some (allUsers.filter (fun u => u.isActive && ids.contains u.id))
      else none
    | none => none

/-- The 404 message sent when no verified user remains;
the exclusion count is embedded only when it is positive. -/
def noVerifiedMsg (unverifiedCount : Nat) : String :=
  "No users with verified emails found. "
    ++ (if 0 < unverifiedCount
        then toString unverifiedCount ++ " user(s) have unverified emails."
        else "")

/-- JavaScript `a || b` on an optional string (used for
`config.CLIENT_URL || "http://localhost:5173"`). -/
def jsOr (o : Option String) (dflt : String) : String :=
  match o with
  | some s => if s.isEmpty then dflt else s
  | none => dflt

/-- `emailList = users.map((user) => ({ to, subject, html, text }))`. -/
def buildEmailList (render : Post → String → String → String)
    (clientUrl : Option String) (post : Post) (subject content : String)
    (users : List User) : List EmailData :=
  users.map (fun u =>
    { toAddr := u.email
      subject := subject
      html := render post subject content
      text := some (subject ++ "\n\n" ++ content ++ "\n\nRead full article: "
        ++ (jsOr clientUrl "http://localhost:5173" ++ "/posts/" ++ post.slug)) })

def backgroundDataMsg (n : Nat) : String :=
  "Processing " ++ toString n ++ " emails in background. This may take several minutes."

def backgroundAckMsg (n : Nat) : String :=
  "Email sending started for " ++ toString n ++ " users. Processing in background..."

def reportMsg (sc fc unv : Nat) : String :=
  "Notifications sent: " ++ toString sc ++ " successful, " ++ toString fc ++ " failed"
    ++ (if 0 < unv then ", " ++ toString unv ++ " skipped (unverified email)" else "")

/-- `sendNotification(req, res, next)` of the notification controller,
together with the dispatch the caller does not wait for.  The first
component is the caller-visible response.  The second is `some r` exactly
when the background branch started a detached `sendBulkEmails` run: `r` is
the result of that run, which the code only logs (`.then(console.log)` /
`.catch(console.error)`) and never sends to the caller.  `post?` is the
result of `Post.findById`, `allUsers` the user collection backing the
`User.find` queries, `render` the template generator and `clientUrl` the
`config.CLIENT_URL` setting. -/
def sendNotificationFull (env : Env) (send : EmailData → Except String String)
    (render : Post → String → String → String) (clientUrl : Option String)
    (post? : Option Post) (allUsers : List User) (req : NotifyReq) :
    NotifyRes × Option (Except String (List Outcome)) :=
  if !validationOk req then
    (.appError "Post ID, subject, and content are required" 400, none)
  else
    match post? with
    | none => (.appError "Post not found" 404, none)
    | some post =>
      match selectUsers req allUsers with
      | none => (.appError "Please select users or choose to send to all" 400, none)
      | some selected =>
        let totalUsers := selected.length
        let users := selected.filter (fun u => u.isEmailVerified)
        let unverifiedCount := totalUsers - users.length
        if users.length = 0 then
          (.appError (noVerifiedMsg unverifiedCount) 404, none)
        else
          let emailList := buildEmailList render clientUrl post
            (req.subject.getD "") (req.content.getD "") users
          if LARGE_BATCH_THRESHOLD ≤ emailList.length then
            (.ackBackground users.length totalUsers unverifiedCount true
              (backgroundDataMsg emailList.length) (backgroundAckMsg emailList.length),
             some (sendBulkEmails env send emailList))
          else
            match sendBulkEmails env send emailList with
            | .error _ => (.appError "Failed to send notifications" 500, none)
            | .ok results =>
              (.report users.length totalUsers unverifiedCount
                (successCount results) (failureCount results) results
                (reportMsg (successCount results) (failureCount results) unverifiedCount),
               none)

/-- The caller-visible response of `sendNotification`. -/
def sendNotification (env : Env) (send : EmailData → Except String String)
    (render : Post → String → String → String) (clientUrl : Option String)
    (post? : Option Post) (allUsers : List User) (req : NotifyReq) : NotifyRes :=
  (sendNotificationFull env send render clientUrl post? allUsers req).1

/-- A sample email payload for the concrete-input theorems. -/
def sampleEmail : EmailData :=
  { toAddr := "user@example.com", subject := "s", html := "<p>h</p>", text := none }

/-- A second, distinct sample email payload. -/
def sampleEmail2 : EmailData :=
  { toAddr := "second@example.com", subject := "s", html := "<p>h</p>", text := none }

/-- An environment with both SMTP credentials configured. -/
def envOk : Env := { smtpUser := some "krupdates.25@gmail.com", smtpPass := some "pw" }

/-- An environment with the SMTP credentials unset. -/
def envNoSmtp : Env := { smtpUser := none, smtpPass := none }

/-- A transport that accepts every message. -/
def okSend : EmailData → Except String String := fun _ => .ok "mid-1"

/-- A transport that rejects every message. -/
def failSend : EmailData → Except String String := fun _ => .error "boom"

def samplePost : Post := { slug := "hello-world" }

def sampleRender : Post → String → String → String := fun _ s c => s ++ c

def verifiedUser : User :=
  { id := 1, email := "user@example.com", isActive := true, isEmailVerified := true }

def unverifiedUser : User :=
  { id := 2, email := "u2@example.com", isActive := true, isEmailVerified := false }

def sampleReq : NotifyReq :=
  { postId := some "p1", userIds := none, subject := some "Subj",
    content := some "Body", sendToAll := true }

/-- C1: the concurrency ceiling is not enforced by the code.  The group loop
of `sendBulkEmails` pushes the `Promise.all` of each group into `batchPromises`
without awaiting inside the loop, so every `transporter.sendMail` call of
the batch is entered before any delivery promise settles.  On a single
batch of 11 recipients the trace of the code reaches 11 simultaneous in-flight
attempts, exceeding `CONCURRENT_PER_BATCH = 10`, whereas the
group-serialized executor described by the specification (and by the
own comments of the code) peaks at exactly 10. -/
theorem C1_ceiling_exceeded_at_eleven :
    maxInFlight (fanOutTrace (List.replicate 11 sampleEmail)) = 11
      ∧ CONCURRENT_PER_BATCH < 11
      ∧ maxInFlight (specFanOutTrace (List.replicate 11 sampleEmail)) = CONCURRENT_PER_BATCH := by
  decide

/-- C2: for every recipient list, whenever the transporter can be created,
`sendBulkEmails` resolves with exactly one outcome per recipient and the
outcome emails are exactly the input addresses, position by position (so
each recipient appears exactly once — no duplicates, no omissions),
whatever the transport does. -/
theorem C2_outcome_coverage (env : Env) (send : EmailData → Except String String)
    (l : List EmailData) (h : createTransporterOk env = true) :
    ∃ rs, sendBulkEmails env send l = .ok rs
      ∧ rs.length = l.length
      ∧ rs.map Outcome.email = l.map EmailData.toAddr := by
  refine ⟨l.map (attemptOutcome send), sendBulkEmails_ok env send l h, by simp, ?_⟩
  rw [List.map_map]
  apply List.map_congr_left
  intro e _
  cases hse : send e <;> simp [attemptOutcome, hse, Function.comp_def]

theorem C2_outcome_coverage_witness :
    createTransporterOk envOk = true
      ∧ ∃ rs, sendBulkEmails envOk okSend [sampleEmail, sampleEmail2] = .ok rs
          ∧ rs.length = [sampleEmail, sampleEmail2].length
          ∧ rs.map Outcome.email = [sampleEmail, sampleEmail2].map EmailData.toAddr :=
  ⟨by decide, C2_outcome_coverage envOk okSend [sampleEmail, sampleEmail2] (by decide)⟩

/-- C3: every outcome list resolved by `sendBulkEmails` satisfies
`successCount + failureCount = total`: each outcome carries a boolean
`success` flag, so the two filters partition the list, and the list has
one entry per attempted recipient. -/
theorem C3_count_partition (env : Env) (send : EmailData → Except String String)
    (l : List EmailData) (rs : List Outcome)
    (h : sendBulkEmails env send l = .ok rs) :
    successCount rs + failureCount rs = rs.length ∧ rs.length = l.length := by
  refine ⟨successCount_add_failureCount rs, ?_⟩
  by_cases hok : createTransporterOk env = true
  · rw [sendBulkEmails_ok env send l hok] at h
    injection h with h
    subst h
    simp
  · unfold sendBulkEmails at h
    rw [if_neg hok] at h
    simp at h

theorem C3_count_partition_witness :
    sendBulkEmails envOk okSend [sampleEmail]
        = .ok [{ success := true, email := "user@example.com",
                 messageId := some "mid-1", error := none }]
      ∧ (successCount [{ success := true, email := "user@example.com",
                         messageId := some "mid-1", error := none }]
          + failureCount [{ success := true, email := "user@example.com",
                            messageId := some "mid-1", error := none }]
          = [({ success := true, email := "user@example.com",
                messageId := some "mid-1", error := none } : Outcome)].length
        ∧ [({ success := true, email := "user@example.com",
              messageId := some "mid-1", error := none } : Outcome)].length
            = [sampleEmail].length) :=
  ⟨rfl, C3_count_partition envOk okSend [sampleEmail] _ rfl⟩

/-- C5: `sendBulkEmails` splits a list of length `N` into `⌈N / 50⌉`
batches preserving input order; every batch except possibly the last has
exactly `BATCH_SIZE` elements and the last has `N mod 50` (or `50` when
`50` divides `N`); an empty list yields no batches, an empty event trace
(hence no delay) and the empty outcome list. -/
theorem C5_batching (l : List EmailData) :
    (chunkList BATCH_SIZE l).length = (l.length + BATCH_SIZE - 1) / BATCH_SIZE
      ∧ (chunkList BATCH_SIZE l).flatten = l
      ∧ (∀ c ∈ (chunkList BATCH_SIZE l).dropLast, c.length = BATCH_SIZE)
      ∧ (l ≠ [] → (chunkList BATCH_SIZE l).getLast?.map List.length
          = some (if l.length % BATCH_SIZE = 0 then BATCH_SIZE else l.length % BATCH_SIZE))
      ∧ (l = [] → chunkList BATCH_SIZE l = []
          ∧ schedulerTrace l = []
          ∧ ∀ (env : Env) (send : EmailData → Except String String),
              createTransporterOk env = true → sendBulkEmails env send l = .ok []) := by
  refine ⟨chunkList_length BATCH_SIZE (by decide) l,
    chunkList_flatten BATCH_SIZE (by decide) l,
    chunkList_dropLast_length BATCH_SIZE (by decide) l,
    fun hl => chunkList_getLast_length BATCH_SIZE (by decide) l hl,
    fun hl => ?_⟩
  subst hl
  refine ⟨chunkList_nil BATCH_SIZE, ?_, fun env send h => ?_⟩
  · rw [schedulerTrace, chunkList_nil]
    rfl
  · rw [sendBulkEmails_ok env send [] h]
    rfl

theorem C5_batching_witness :
    (List.replicate 120 sampleEmail ≠ [])
      ∧ (chunkList BATCH_SIZE (List.replicate 120 sampleEmail)).length = 3
      ∧ (chunkList BATCH_SIZE (List.replicate 120 sampleEmail)).getLast?.map List.length
          = some 20 := by
  refine ⟨by decide, by decide, ?_⟩
  have h := (C5_batching (List.replicate 120 sampleEmail)).2.2.2.1 (by decide)
  rw [h]
  decide

/-- C6: with at least one batch, the scheduler trace is the complete
fan-out trace of the first batch followed, for each later batch in order,
by exactly one inter-batch pause and then the complete fan-out trace of
that batch — so
batches run strictly sequentially, every event of a batch (including all
its settlements) precedes every event of the next, there are exactly
`k - 1` pauses for `k` batches, none after the final batch and none when
there is a single batch. -/
theorem C6_sequential_pacing (l : List EmailData) (h : chunkList BATCH_SIZE l ≠ []) :
    (∃ b bs, chunkList BATCH_SIZE l = b :: bs
        ∧ schedulerTrace l
            = fanOutTrace b ++ (bs.map (fun c => Ev.batchDelay :: fanOutTrace c)).flatten)
      ∧ (schedulerTrace l).countP isDelay = (chunkList BATCH_SIZE l).length - 1 := by
  constructor
  · match hc : chunkList BATCH_SIZE l with
    | [] => exact absurd hc h
    | b :: bs =>
      refine ⟨b, bs, rfl, ?_⟩
      rw [schedulerTrace, hc]
      exact schedLoop_closed b bs
  · rw [schedulerTrace, schedLoop_countP_delay _ h]

theorem C6_sequential_pacing_witness :
    (chunkList BATCH_SIZE (List.replicate 51 sampleEmail) ≠ [])
      ∧ (schedulerTrace (List.replicate 51 sampleEmail)).countP isDelay
          = (chunkList BATCH_SIZE (List.replicate 51 sampleEmail)).length - 1
      ∧ (schedulerTrace (List.replicate 51 sampleEmail)).countP isDelay = 1 :=
  ⟨by decide,
   (C6_sequential_pacing (List.replicate 51 sampleEmail) (by decide)).2,
   by decide⟩

/-- C8: every transport failure is absorbed locally: whenever the
transporter exists, `sendBulkEmails` resolves (never rejects) with one
outcome per recipient; the outcome at position `i` is a function of the
behaviour of the transport on recipient `i` alone, so a failure cannot affect
siblings; a rejected send becomes a failed outcome carrying the error
message; and every delivery of every batch settles — the scheduler never
stops early, whatever the transport answers. -/
theorem C8_fault_isolation (env : Env) (send : EmailData → Except String String)
    (l : List EmailData) (h : createTransporterOk env = true) :
    ∃ rs, sendBulkEmails env send l = .ok rs
      ∧ (∀ i : Nat, rs[i]? = (l[i]?).map (attemptOutcome send))
      ∧ (∀ e msg, send e = .error msg →
          attemptOutcome send e
            = { success := false, email := e.toAddr, messageId := none, error := some msg })
      ∧ (schedulerTrace l).countP isSettle = l.length := by
  refine ⟨l.map (attemptOutcome send), sendBulkEmails_ok env send l h, ?_, ?_, ?_⟩
  · intro i
    rw [List.getElem?_map]
  · intro e msg hse
    simp [attemptOutcome, hse]
  · rw [schedulerTrace, schedLoop_countP_settle]
    have hsum : ((chunkList BATCH_SIZE l).map List.length).sum
        = (chunkList BATCH_SIZE l).flatten.length := (List.length_flatten _).symm
    rw [hsum, chunkList_flatten BATCH_SIZE (by decide)]

theorem C8_fault_isolation_witness :
    createTransporterOk envOk = true
      ∧ ∃ rs, sendBulkEmails envOk failSend [sampleEmail, sampleEmail2] = .ok rs
          ∧ (∀ i : Nat, rs[i]?
              = ([sampleEmail, sampleEmail2][i]?).map (attemptOutcome failSend))
          ∧ (∀ e msg, failSend e = .error msg →
              attemptOutcome failSend e
                = { success := false, email := e.toAddr, messageId := none, error := some msg })
          ∧ (schedulerTrace [sampleEmail, sampleEmail2]).countP isSettle
              = [sampleEmail, sampleEmail2].length :=
  ⟨by decide, C8_fault_isolation envOk failSend [sampleEmail, sampleEmail2] (by decide)⟩

/-- C10: the outcome list resolved by `sendBulkEmails` is positionally
aligned with the input: it is exactly the input list mapped through the
per-recipient delivery attempt, so the `i`-th outcome is the attempt for
the `i`-th recipient and carries the address of that recipient. -/
theorem C10_positional_order (env : Env) (send : EmailData → Except String String)
    (l : List EmailData) (h : createTransporterOk env = true) :
    sendBulkEmails env send l = .ok (l.map (attemptOutcome send))
      ∧ (∀ i : Nat, (l.map (attemptOutcome send))[i]?
          = (l[i]?).map (attemptOutcome send))
      ∧ (∀ e : EmailData, (attemptOutcome send e).email = e.toAddr) := by
  refine ⟨sendBulkEmails_ok env send l h,
    fun i => List.getElem?_map (attemptOutcome send) l i, fun e => ?_⟩
  cases hse : send e <;> simp [attemptOutcome, hse]

theorem C10_positional_order_witness :
    createTransporterOk envOk = true
      ∧ sendBulkEmails envOk okSend [sampleEmail, sampleEmail2]
          = .ok ([sampleEmail, sampleEmail2].map (attemptOutcome okSend))
      ∧ (∀ i : Nat, ([sampleEmail, sampleEmail2].map (attemptOutcome okSend))[i]?
          = ([sampleEmail, sampleEmail2][i]?).map (attemptOutcome okSend))
      ∧ (∀ e : EmailData, (attemptOutcome okSend e).email = e.toAddr) :=
  ⟨by decide, C10_positional_order envOk okSend [sampleEmail, sampleEmail2] (by decide)⟩

theorem buildEmailList_length (render : Post → String → String → String)
    (clientUrl : Option String) (post : Post) (s c : String) (users : List User) :
    (buildEmailList render clientUrl post s c users).length = users.length := by
  simp [buildEmailList]

/-- C4: mode selection at the `LARGE_BATCH_THRESHOLD = 500` boundary.  With
a valid request, an existing post, a successful selection, at least one
verified recipient and a configured transporter: below the threshold the
controller runs the whole dispatch and answers with the finalized
per-recipient report (counts and full outcome list), starting no detached
run; at or above the threshold the caller-visible answer is an
acknowledgement carrying the recipient counts and a `processing` marker but
no outcomes, it is the same whatever the environment and the transport do
(so it cannot depend on any delivery outcome and is available before
dispatch finishes), and the dispatch itself runs detached, its result only
available for logging. -/
theorem C4_mode_selection (env : Env) (send : EmailData → Except String String)
    (render : Post → String → String → String) (clientUrl : Option String)
    (post : Post) (allUsers : List User) (req : NotifyReq) (selected : List User)
    (hval : validationOk req = true)
    (hsel : selectUsers req allUsers = some selected)
    (hn : (selected.filter (fun u => u.isEmailVerified)).length ≠ 0)
    (hok : createTransporterOk env = true) :
    ((selected.filter (fun u => u.isEmailVerified)).length < LARGE_BATCH_THRESHOLD →
      sendNotificationFull env send render clientUrl (some post) allUsers req
        = (.report (selected.filter (fun u => u.isEmailVerified)).length
            selected.length
            (selected.length - (selected.filter (fun u => u.isEmailVerified)).length)
            (successCount ((buildEmailList render clientUrl post (req.subject.getD "")
              (req.content.getD "") (selected.filter (fun u => u.isEmailVerified))).map
                (attemptOutcome send)))
            (failureCount ((buildEmailList render clientUrl post (req.subject.getD "")
              (req.content.getD "") (selected.filter (fun u => u.isEmailVerified))).map
                (attemptOutcome send)))
            ((buildEmailList render clientUrl post (req.subject.getD "")
              (req.content.getD "") (selected.filter (fun u => u.isEmailVerified))).map
                (attemptOutcome send))
            (reportMsg
              (successCount ((buildEmailList render clientUrl post (req.subject.getD "")
                (req.content.getD "") (selected.filter (fun u => u.isEmailVerified))).map
                  (attemptOutcome send)))
              (failureCount ((buildEmailList render clientUrl post (req.subject.getD "")
                (req.content.getD "") (selected.filter (fun u => u.isEmailVerified))).map
                  (attemptOutcome send)))
              (selected.length - (selected.filter (fun u => u.isEmailVerified)).length)),
          none))
    ∧ (LARGE_BATCH_THRESHOLD ≤ (selected.filter (fun u => u.isEmailVerified)).length →
      ∀ (env' : Env) (send' : EmailData → Except String String),
        sendNotificationFull env' send' render clientUrl (some post) allUsers req
          = (.ackBackground (selected.filter (fun u => u.isEmailVerified)).length
              selected.length
              (selected.length - (selected.filter (fun u => u.isEmailVerified)).length)
              true
              (backgroundDataMsg (selected.filter (fun u => u.isEmailVerified)).length)
              (backgroundAckMsg (selected.filter (fun u => u.isEmailVerified)).length),
             some (sendBulkEmails env' send' (buildEmailList render clientUrl post
               (req.subject.getD "") (req.content.getD "")
               (selected.filter (fun u => u.isEmailVerified)))))) := by
  constructor
  · intro hlt
    unfold sendNotificationFull
    rw [hval]
    simp only [Bool.not_true, Bool.false_eq_true, if_false, hsel]
    rw [if_neg hn, buildEmailList_length,
      if_neg (by omega : ¬ LARGE_BATCH_THRESHOLD ≤ (selected.filter (fun u => u.isEmailVerified)).length),
      sendBulkEmails_ok env send _ hok]
  · intro hge env' send'
    unfold sendNotificationFull
    rw [hval]
    simp only [Bool.not_true, Bool.false_eq_true, if_false, hsel]
    rw [if_neg hn, buildEmailList_length, if_pos hge]

theorem C4_mode_selection_witness :
    validationOk sampleReq = true
      ∧ selectUsers sampleReq [verifiedUser] = some [verifiedUser]
      ∧ ([verifiedUser].filter (fun u => u.isEmailVerified)).length ≠ 0
      ∧ createTransporterOk envOk = true
      ∧ sendNotificationFull envOk okSend sampleRender none (some samplePost)
          [verifiedUser] sampleReq
        = (.report 1 1 0 1 0
            [{ success := true, email := "user@example.com",
               messageId := some "mid-1", error := none }]
            (reportMsg 1 0 0), none) := by
  refine ⟨by decide, by decide, by decide, by decide, ?_⟩
  have h := (C4_mode_selection envOk okSend sampleRender none samplePost [verifiedUser]
    sampleReq [verifiedUser] (by decide) (by decide) (by decide) (by decide)).1 (by decide)
  rw [h]
  rfl

/-- C7 counterexample: with one selected but unverified user, the
controller does not produce a non-error "nothing to send" result: it goes
down the Express error path, answering
`AppError("No users with verified emails found. 1 user(s) have unverified
emails.", 404)`. -/
theorem C7_counterexample :
    sendNotification envOk okSend sampleRender none (some samplePost)
        [unverifiedUser] sampleReq
      = .appError "No users with verified emails found. 1 user(s) have unverified emails." 404
      ∧ isAppError (sendNotification envOk okSend sampleRender none (some samplePost)
          [unverifiedUser] sampleReq) = true :=
  ⟨rfl, rfl⟩

/-- C7 (amended): when every selected user is unverified, the controller
does short-circuit before the scheduler and the transport — the response is
the same whatever environment and transport are supplied, and no detached
run starts — but the result is an error response, an `AppError` with
status 404, whose message carries the exclusion count when it is
positive. -/
theorem C7_zero_verified_is_error (render : Post → String → String → String)
    (clientUrl : Option String) (post : Post) (allUsers : List User)
    (req : NotifyReq) (selected : List User)
    (hval : validationOk req = true)
    (hsel : selectUsers req allUsers = some selected)
    (hzero : (selected.filter (fun u => u.isEmailVerified)).length = 0) :
    ∀ (env : Env) (send : EmailData → Except String String),
      sendNotificationFull env send render clientUrl (some post) allUsers req
        = (.appError (noVerifiedMsg selected.length) 404, none) := by
  intro env send
  unfold sendNotificationFull
  rw [hval]
  simp only [Bool.not_true, Bool.false_eq_true, if_false, hsel]
  rw [if_pos hzero, hzero, Nat.sub_zero]

theorem C7_zero_verified_is_error_witness :
    validationOk sampleReq = true
      ∧ selectUsers sampleReq [unverifiedUser] = some [unverifiedUser]
      ∧ ([unverifiedUser].filter (fun u => u.isEmailVerified)).length = 0
      ∧ sendNotificationFull envOk okSend sampleRender none (some samplePost)
          [unverifiedUser] sampleReq
        = (.appError (noVerifiedMsg 1) 404, none) := by
  refine ⟨by decide, by decide, by decide, ?_⟩
  exact C7_zero_verified_is_error sampleRender none samplePost [unverifiedUser]
    sampleReq [unverifiedUser] (by decide) (by decide) (by decide) envOk okSend

theorem sendBulkEmails_err (env : Env) (send : EmailData → Except String String)
    (l : List EmailData) (h : createTransporterOk env = false) :
    sendBulkEmails env send l = .error smtpMissingMsg := by
  unfold sendBulkEmails
  rw [if_neg (by simp [h])]

/-- C9 counterexample: with a found post and one verified recipient the
resolver and the renderer both succeed, yet no run report is produced:
with the SMTP credentials unset, `createTransporter` throws inside
`sendBulkEmails` and the immediate path answers
`AppError("Failed to send notifications", 500)` — a failure class other
than resolver/rendering that also prevents a report. -/
theorem C9_counterexample :
    createTransporterOk envNoSmtp = false
      ∧ selectUsers sampleReq [verifiedUser] = some [verifiedUser]
      ∧ sendNotification envNoSmtp okSend sampleRender none (some samplePost)
          [verifiedUser] sampleReq
        = .appError "Failed to send notifications" 500 :=
  ⟨rfl, rfl, rfl⟩

/-- C9 (amended): resolver failures — missing required fields, post not
found, empty selection — are each surfaced to the caller before any
dispatch begins (no scheduler invocation, no detached run, response
independent of the transport); but they are not the only failure class
that prevents a run report: an otherwise valid immediate-mode job with the
SMTP credentials unconfigured also produces no report, failing with a
500. -/
theorem C9_prestart_failures (env : Env) (send : EmailData → Except String String)
    (render : Post → String → String → String) (clientUrl : Option String)
    (post? : Option Post) (allUsers : List User) (req : NotifyReq) :
    (validationOk req = false →
      sendNotificationFull env send render clientUrl post? allUsers req
        = (.appError "Post ID, subject, and content are required" 400, none))
    ∧ (validationOk req = true → post? = none →
      sendNotificationFull env send render clientUrl post? allUsers req
        = (.appError "Post not found" 404, none))
    ∧ (∀ post : Post, validationOk req = true → post? = some post →
        selectUsers req allUsers = none →
        sendNotificationFull env send render clientUrl post? allUsers req
          = (.appError "Please select users or choose to send to all" 400, none))
    ∧ (∀ (post : Post) (selected : List User), validationOk req = true →
        post? = some post → selectUsers req allUsers = some selected →
        (selected.filter (fun u => u.isEmailVerified)).length ≠ 0 →
        (selected.filter (fun u => u.isEmailVerified)).length < LARGE_BATCH_THRESHOLD →
        createTransporterOk env = false →
        sendNotificationFull env send render clientUrl post? allUsers req
          = (.appError "Failed to send notifications" 500, none)) := by
  refine ⟨?_, ?_, ?_, ?_⟩
  · intro hval
    unfold sendNotificationFull
    rw [hval]
    simp
  · intro hval hpost
    subst hpost
    unfold sendNotificationFull
    rw [hval]
    simp
  · intro post hval hpost hsel
    subst hpost
    unfold sendNotificationFull
    rw [hval]
    simp only [Bool.not_true, Bool.false_eq_true, if_false, hsel]
  · intro post selected hval hpost hsel hn hlt hbad
    subst hpost
    unfold sendNotificationFull
    rw [hval]
    simp only [Bool.not_true, Bool.false_eq_true, if_false, hsel]
    rw [if_neg hn, buildEmailList_length,
      if_neg (by omega :
        ¬ LARGE_BATCH_THRESHOLD ≤ (selected.filter (fun u => u.isEmailVerified)).length),
      sendBulkEmails_err env send _ hbad]

theorem C9_prestart_failures_witness :
    validationOk sampleReq = true
      ∧ selectUsers sampleReq [verifiedUser] = some [verifiedUser]
      ∧ ([verifiedUser].filter (fun u => u.isEmailVerified)).length ≠ 0
      ∧ createTransporterOk envNoSmtp = false
      ∧ sendNotificationFull envNoSmtp okSend sampleRender none (some samplePost)
          [verifiedUser] sampleReq
        = (.appError "Failed to send notifications" 500, none) := by
  refine ⟨by decide, by decide, by decide, by decide, ?_⟩
  exact (C9_prestart_failures envNoSmtp okSend sampleRender none (some samplePost)
    [verifiedUser] sampleReq).2.2.2 samplePost [verifiedUser]
    (by decide) rfl (by decide) (by decide) (by decide) (by decide)
